import Mathlib

/-!
Verification of the `squrrl` SQL-builder repository: a shallow embedding of
the statement data model and the text renderers found in
`src/squrrl/core_draft.py`, `src/squrrl/core.py`, `src/squrrl/constructor.py`
and `src/squrrl/select.py`, together with theorems settling the frozen
claims about the natural-language specification.

Python exceptions are modelled with `Except PyErr`; Python's `dict`-backed
`TypedDict` statements are modelled as records of `Option` fields (a key
present in the dict is a `some` field).
-/

/-- Kinds of Python runtime errors the rendering code can raise. -/
inductive PyErr where
  | attributeError
  | typeError
  deriving Repr, DecidableEq

/-- The value space of `get_sql_parts`: either a single line (a Python `str`)
or a list of lines (a Python `list[str]`). -/
inductive TextForm where
  | one (s : String)
  | many (l : List String)
  deriving Repr, DecidableEq

/-- A string of `n` spaces, modelling Python's `indent * " "` (for the
non-negative indents the renderer uses). -/
def spaces (n : Nat) : String :=
  String.mk (List.replicate n ' ')

/-- Python's `sep.join(parts)`: empty for `[]`, otherwise the parts with
`sep` in between. -/
def pyJoin (sep : String) : List String → String
  | [] => ""
  | [x] => x
  | x :: y :: rest => x ++ sep ++ pyJoin sep (y :: rest)

/-- `utils.cat` / `constructor._cat`: drop `None` and empty strings
(`is_not_none` tests truthiness), then join the rest with `delim`. -/
def cat (delim : String) (strs : List (Option String)) : String :=
  pyJoin delim ((strs.filterMap id).filter (fun s => s ≠ ""))

/-- `utils.add_indent` on a list of lines: prepend `indent` spaces to each. -/
def addIndent (l : List String) (indent : Nat) : List String :=
  l.map (fun it => spaces indent ++ it)

/-- `utils.nl_join` / `constructor._nl_join`: indent every line and join the
lines with newlines. -/
def nlJoin (l : List String) (indent : Nat) : String :=
  pyJoin "\n" (addIndent l indent)

/-- Python's `parts[-1] += s` (the lists it is applied to are never empty at
the call sites in the source, so the `[]` case is unreachable). -/
def addToLast : List String → String → List String
  | [], _ => []
  | [x], s => [x ++ s]
  | x :: y :: rest, s => x :: addToLast (y :: rest) s

/-- Python's `parts[0] = s + parts[0]` (again never applied to `[]`). -/
def addToFirst : List String → String → List String
  | [], _ => []
  | x :: rest, s => (s ++ x) :: rest

namespace Draft

/-! ## The `core_draft.py` object model -/

/-- `core_draft.Param`: `name` is the optional parameter name.
`get_sql_parts` renders `":{name}"` for a truthy name, else the positional
marker `"%s"` (`Param.Config.param_str`). -/
structure Param where
  name : Option String
  deriving Repr, DecidableEq

def Param.getSqlParts (p : Param) : String :=
  match p.name with
  | some n => if n = "" then "%s" else ":" ++ n
  | none => "%s"

/-- `core_draft.Column`: `name`, `table_name`, `schema_name`; `get_path`
raises `AttributeError` when `name` was never set. -/
structure Column where
  name : Option String
  table_name : Option String
  schema_name : Option String
  deriving Repr, DecidableEq

def Column.getPath (c : Column) : Except PyErr String :=
  match c.name with
  | none => .error .attributeError
  | some n => .ok (cat "." [c.schema_name, c.table_name, some n])

/-- `core_draft.ColumnAlias`: renders `"{col} AS {alias}"` (the Python
attribute `alias` is called `aliasName` here; `alias` is reserved in Lean). -/
structure ColumnAlias where
  aliasName : String
  col : Column
  deriving Repr, DecidableEq

def ColumnAlias.getSqlParts (a : ColumnAlias) : Except PyErr String := do
  let c ← a.col.getPath
  pure (c ++ " AS " ++ a.aliasName)

/-- A `core_draft.Table` class used as a value: `get_sql_parts` is
`utils.cat(schema_name, table_name, delim=".")`. -/
structure Table where
  schema_name : Option String
  table_name : String
  deriving Repr, DecidableEq

def Table.getSqlParts (t : Table) : String :=
  cat "." [t.schema_name, some t.table_name]

/-- Arguments of the `SELECT` clause (`SELECT.ColArg`): a literal string or
a column-derivable object. Nested `SELECT` objects inside a projection are
not needed by any claim and are omitted from this model. -/
inductive ColArg where
  | lit (s : String)
  | param (p : Param)
  | col (c : Column)
  | colAlias (a : ColumnAlias)
  deriving Repr, DecidableEq

mutual
/-- Operands of a `core_draft.Criterion` (`Expression = Criterion |
ColumnDerivable | LiteralString`); `sel` is a `SELECT` clause object used as
an operand (`SELECT` is `ColumnDerivable`), the source of multi-line
operands. -/
inductive CExpr where
  | lit (s : String)
  | param (p : Param)
  | col (c : Column)
  | crit (c : Criterion)
  | sel (mode : String) (cols : List ColArg)

/-- `core_draft.Criterion`: left operand, operator, right operand, the `neg`
flag, and the `_prev` attribute. -/
inductive Criterion where
  | mk (le : CExpr) (op : String) (ri : CExpr) (neg : Bool) (prev : PrevField)

/-- The `_prev` attribute of a `Criterion`: `unset` models the attribute
never having been assigned (reading it raises `AttributeError`); `set`
models `_prev = {"op": op, "cr": cr}` as assigned by `AND`/`OR`. -/
inductive PrevField where
  | unset
  | set (op : String) (cr : Criterion)
end

/-- `Criterion(le, op, ri, neg=False)`. -/
def Criterion.make (le : CExpr) (op : String) (ri : CExpr) : Criterion :=
  .mk le op ri false .unset

/-- `Criterion.NOT(le, op, ri)`: a negated condition. -/
def Criterion.NOT (le : CExpr) (op : String) (ri : CExpr) : Criterion :=
  .mk le op ri true .unset

/-- `a.AND(criterion)`: sets `criterion._prev = {"op": "AND", "cr": a}` and
returns `criterion`. -/
def Criterion.AND : Criterion → Criterion → Criterion
  | a, .mk le op ri neg _ => .mk le op ri neg (.set "AND" a)

/-- `a.OR(criterion)`: sets `criterion._prev = {"op": "OR", "cr": a}` and
returns `criterion`. -/
def Criterion.OR : Criterion → Criterion → Criterion
  | a, .mk le op ri neg _ => .mk le op ri neg (.set "OR" a)

/-- The `SELECT.get_sql_parts` loop body over `self.cols`: each column's
lines, with `","` appended to the last line of every column but the last. -/
def colArgLines (indent : Nat) : ColArg → Except PyErr (List String)
  | .lit s => .ok [spaces indent ++ s]
  | .param p => .ok [spaces indent ++ p.getSqlParts]
  | .col c => do pure [spaces indent ++ (← c.getPath)]
  | .colAlias a => do pure [spaces indent ++ (← a.getSqlParts)]

def selectColsLoop (indent : Nat) : List ColArg → Except PyErr (List String)
  | [] => .ok []
  | [c] => colArgLines indent c
  | c :: c2 :: rest => do
      let l ← colArgLines indent c
      let r ← selectColsLoop indent (c2 :: rest)
      pure (addToLast l "," ++ r)

/-- `core_draft.SELECT.get_sql_parts`: `"SELECT"` (or `"SELECT DISTINCT"`
when `select_mode` is not `"ALL"`) followed by the rendered columns. -/
def selectClParts (mode : String) (cols : List ColArg) (indent : Nat) :
    Except PyErr (List String) := do
  let rest ← selectColsLoop indent cols
  pure ((if mode = "ALL" then "SELECT" else "SELECT DISTINCT") :: rest)

mutual
/-- `Criterion._get_sql_part_helper`: render an operand; a multi-line result
is wrapped in `"("` / `")"` lines, a single-line `Criterion` result is
wrapped in one parenthesis pair. -/
def sqlPartHelper (part : CExpr) (indent : Nat) :
    Except PyErr TextForm := do
  let sql_parts : TextForm ←
    match part with
    | .lit s => pure (.one s)
    | .param p => pure (.one p.getSqlParts)
    | .col c => do pure (.one (← c.getPath))
    | .crit c => criterionParts c indent
    | .sel mode cols => do pure (.many (← selectClParts mode cols indent))
  match sql_parts with
  | .many l => pure (.many (["("] ++ addIndent l indent ++ [")"]))
  | .one s =>
      match part with
      | .crit _ => pure (.one ("(" ++ s ++ ")"))
      | _ => pure (.one s)

/-- `core_draft.Criterion.get_sql_parts`. When both operands render
single-line the function returns `"{le} {op} {ri}"` immediately (before the
`neg` and `_prev` handling). Otherwise it builds the multi-line form,
applies the `"NOT "` prefix, and then reads `self._prev` — which raises
`AttributeError` when the attribute was never assigned. -/
def criterionParts (c : Criterion) (indent : Nat) :
    Except PyErr TextForm := do
  match c with
  | .mk cle cop cri cneg cprev =>
    let le ← sqlPartHelper cle indent
    let ri ← sqlPartHelper cri indent
    match le, ri with
    | .one ls, .one rs => pure (.one (ls ++ " " ++ cop ++ " " ++ rs))
    | _, _ =>
      let res : List String :=
        match le with
        | .many l => l
        | .one s => [s]
      let res := addToLast res (" " ++ cop ++ " ")
      let res :=
        match ri with
        | .many l => res ++ l
        | .one s => addToLast res s
      let res := if cneg then addToFirst res "NOT " else res
      match cprev with
      | .unset => throw .attributeError
      | .set pop pcr => do
          let prev ← criterionParts pcr indent
          let res := addToFirst res (pop ++ " ")
          match prev with
          | .many pl => pure (.many (pl ++ res))
          | .one ps => pure (.many (ps :: res))
end

/-- What a `core_draft.WITH` object wraps: a `Table` class or a `SELECT`
clause object (both are `TableDerivable` in the source's usage). -/
inductive WithTable where
  | tbl (t : Table)
  | selObj (mode : String) (cols : List ColArg)
  deriving Repr, DecidableEq

/-- `core_draft.WITH`: a wrapped table expression plus its alias. -/
structure WithDraft where
  table : WithTable
  aliasName : String
  deriving Repr, DecidableEq

def WithTable.getSqlParts (t : WithTable) (indent : Nat) :
    Except PyErr TextForm :=
  match t with
  | .tbl tb => .ok (.one tb.getSqlParts)
  | .selObj mode cols => do pure (.many (← selectClParts mode cols indent))

/-- `core_draft.WITH.get_sql_parts`. After rendering the wrapped table the
source tests `isinstance(tmp, LiteralString)`; at runtime
`typing.LiteralString` cannot be used with `isinstance`, so this method
always raises `TypeError` before producing a result. -/
def withClParts (w : WithDraft) (indent : Nat) : Except PyErr TextForm := do
  let _tmp ← w.table.getSqlParts indent
  throw .typeError

/-- Arguments of a `core_draft.FROM` clause (`FROM.FromArg = type[Table] |
TableDerivable`): a `Table` class or a `WITH` object. -/
inductive FromArg where
  | tbl (t : Table)
  | withArg (w : WithDraft)
  deriving Repr, DecidableEq

def FromArg.getSqlParts (f : FromArg) (indent : Nat) :
    Except PyErr TextForm :=
  match f with
  | .tbl t => .ok (.one t.getSqlParts)
  | .withArg w => withClParts w indent

/-- `core_draft.FROM.get_sql_parts`: `"FROM"` then the table expression,
indented. -/
def fromClParts (f : FromArg) (indent : Nat) : Except PyErr TextForm := do
  let table ← f.getSqlParts indent
  match table with
  | .one s => pure (.many ["FROM", spaces indent ++ s])
  | .many l => pure (.many ("FROM" :: addIndent l indent))

/-- `core_draft.WHERE.get_sql_parts`: `"WHERE"` then the rendered condition
(indented when multi-line). -/
def whereClParts (cond : Criterion) (indent : Nat) :
    Except PyErr TextForm := do
  let tmp ← criterionParts cond indent
  match tmp with
  | .many l => pure (.many ("WHERE" :: addIndent l indent))
  | .one s => pure (.many ["WHERE", s])

/-- A value stored in a clause slot of a `core_draft` statement dict. The
dict is dynamically typed: any object exposing `get_sql_parts` can sit in
any slot, so the slot type is the union of the `_SQLPart` implementations. -/
inductive SqlPart where
  | param (p : Param)
  | column (c : Column)
  | colAlias (a : ColumnAlias)
  | table (t : Table)
  | groupBy
  | criterion (c : Criterion)
  | whereCl (cond : Criterion)
  | fromCl (f : FromArg)
  | selectCl (mode : String) (cols : List ColArg)
  | withCl (w : WithDraft)

/-- Dispatch of `self.statement[part].get_sql_parts(indent_)` over the
stored object (`GROUP_BY.get_sql_parts` returns the empty string). -/
def SqlPart.getSqlParts (p : SqlPart) (indent : Nat) :
    Except PyErr TextForm :=
  match p with
  | .param p => .ok (.one p.getSqlParts)
  | .column c => do pure (.one (← c.getPath))
  | .colAlias a => do pure (.one (← a.getSqlParts))
  | .table t => .ok (.one t.getSqlParts)
  | .groupBy => .ok (.one "")
  | .criterion c => criterionParts c indent
  | .whereCl cond => whereClParts cond indent
  | .fromCl f => fromClParts f indent
  | .selectCl mode cols => do pure (.many (← selectClParts mode cols indent))
  | .withCl w => withClParts w indent

/-- `core_draft.Statement_SELECT` as a clause-keyed dict: a `some` field is
a key present in the dict (the `type` key is fixed and carries no
`_SQLPart`, so it is not modelled as a slot). -/
structure StatementDraft where
  WITH : Option SqlPart := none
  SELECT : Option SqlPart := none
  FROM : Option SqlPart := none
  WHERE : Option SqlPart := none
  GROUP_BY : Option SqlPart := none
  HAVING : Option SqlPart := none
  WINDOW : Option SqlPart := none
  SET_OPERATIONS : Option SqlPart := none
  ORDER_BY : Option SqlPart := none
  LIMIT : Option SqlPart := none
  OFFSET : Option SqlPart := none
  FETCH : Option SqlPart := none

/-- The `order` list of `_HasStateSelect.get_sql`, verbatim from the source
(`HAVING` does not appear in it). -/
def order : List String :=
  ["WITH", "SELECT", "FROM", "WHERE", "GROUP_BY", "WINDOW",
   "SET_OPERATIONS", "ORDER_BY", "LIMIT", "OFFSET", "FETCH"]

/-- `part in self.statement` / `self.statement[part]`: look a clause key up
in the statement dict. -/
def StatementDraft.lookup (s : StatementDraft) (key : String) :
    Option SqlPart :=
  if key = "WITH" then s.WITH
  else if key = "SELECT" then s.SELECT
  else if key = "FROM" then s.FROM
  else if key = "WHERE" then s.WHERE
  else if key = "GROUP_BY" then s.GROUP_BY
  else if key = "HAVING" then s.HAVING
  else if key = "WINDOW" then s.WINDOW
  else if key = "SET_OPERATIONS" then s.SET_OPERATIONS
  else if key = "ORDER_BY" then s.ORDER_BY
  else if key = "LIMIT" then s.LIMIT
  else if key = "OFFSET" then s.OFFSET
  else if key = "FETCH" then s.FETCH
  else none

/-- The clause loop of `_HasStateSelect.get_sql`: walk `order`, skip keys
absent from the statement, and collect each present clause's lines into
`res`. -/
def buildResGo (s : StatementDraft) (indent : Nat) :
    List String → List String → Except PyErr (List String)
  | [], res => .ok res
  | k :: ks, res =>
    match s.lookup k with
    | none => buildResGo s indent ks res
    | some p => do
      let tmp ← p.getSqlParts indent
      match tmp with
      | .one str => buildResGo s indent ks (res ++ [str])
      | .many l => buildResGo s indent ks (res ++ l)

def buildRes (s : StatementDraft) (indent : Nat) :
    Except PyErr (List String) :=
  buildResGo s indent order []

/-- `core_draft._HasStateSelect.get_sql`: `indent_ = indent or 0`; collect
the clause fragments; join them with `" "` when `indent is None`, with
`"\n"` otherwise. -/
def getSql (s : StatementDraft) (indent : Option Nat) :
    Except PyErr String := do
  let indent_ := indent.getD 0
  let res ← buildRes s indent_
  match indent with
  | none => pure (pyJoin " " res)
  | some _ => pure (pyJoin "\n" res)

end Draft

namespace Core

/-! ## The `core.py` data model and the `constructor.py` renderer -/

/-- `core.SupportedStatement`. -/
inductive SupportedStatement where
  | SELECT
  | INSERT
  | UPDATE
  | DELETE
  deriving Repr, DecidableEq

/-- The `SELECT` clause value of a `core.Statement_SELECT`
(`core.SELECT_EXPRESSION`, restricted to the literal `"*"` and plain item
lists; the structured `ALL`/`DISTINCT` form is never consumed by
`construct_select_statement` and is not needed by any claim). -/
inductive SelectCore where
  | star
  | items (l : List String)
  deriving Repr, DecidableEq

/-- `core.ORDER_BY`: a column plus optional `order` and `nulls` entries. -/
structure OrderByCore where
  col : String
  order : Option String := none
  nulls : Option String := none
  deriving Repr, DecidableEq

/-- `core.GROUP_BY`. -/
structure GroupByCore where
  mode : Option String := none
  elems : List String
  deriving Repr, DecidableEq

mutual
/-- `core.Statement_SELECT` (clause values carried as the builder stores
them; boolean expressions and table expressions are carried in their
literal-text form, which is all the stage operations and claims touch). -/
inductive StatementSel where
  | mk (WITHv : Option WithCore) (SELECTv : SelectCore)
       (FROMv : Option String) (WHEREv : Option String)
       (GROUP_BYv : Option GroupByCore) (HAVINGv : Option String)
       (WINDOWv : Option (List String))
       (SET_OPERATIONSv : Option (List SetOpCore))
       (ORDER_BYv : Option (List OrderByCore)) (LIMITv : Option String)
       (OFFSETv : Option String) (FETCHv : Option String)

/-- `core.WITH`: the `with_query` list plus the `recursive` flag. -/
inductive WithCore where
  | mk (with_query : List AliasCore) (recursive : Bool)

/-- `core.ALIAS`: `{"as": ..., "expr": ...}`. -/
inductive AliasCore where
  | mk (asName : String) (expr : WithExpr)

/-- The `expr` of a `core.ALIAS`: literal text or a nested SELECT. -/
inductive WithExpr where
  | lit (s : String)
  | sub (st : StatementSel)

/-- The entries `select.py` appends to `SET_OPERATIONS`:
`{"op": ..., "mode": ..., "select": s}` where `s` is the `core.ALIAS`
argument of the stage method. -/
inductive SetOpCore where
  | mk (op : String) (mode : String) (sel : AliasCore)
end

def StatementSel.WITHc : StatementSel → Option WithCore
  | .mk w _ _ _ _ _ _ _ _ _ _ _ => w

def StatementSel.SELECTc : StatementSel → SelectCore
  | .mk _ s _ _ _ _ _ _ _ _ _ _ => s

def StatementSel.FROMc : StatementSel → Option String
  | .mk _ _ f _ _ _ _ _ _ _ _ _ => f

def StatementSel.WHEREc : StatementSel → Option String
  | .mk _ _ _ w _ _ _ _ _ _ _ _ => w

def StatementSel.GROUP_BYc : StatementSel → Option GroupByCore
  | .mk _ _ _ _ g _ _ _ _ _ _ _ => g

def StatementSel.HAVINGc : StatementSel → Option String
  | .mk _ _ _ _ _ h _ _ _ _ _ _ => h

def StatementSel.WINDOWc : StatementSel → Option (List String)
  | .mk _ _ _ _ _ _ w _ _ _ _ _ => w

def StatementSel.SET_OPERATIONSc : StatementSel → Option (List SetOpCore)
  | .mk _ _ _ _ _ _ _ so _ _ _ _ => so

def StatementSel.ORDER_BYc : StatementSel → Option (List OrderByCore)
  | .mk _ _ _ _ _ _ _ _ ob _ _ _ => ob

def StatementSel.LIMITc : StatementSel → Option String
  | .mk _ _ _ _ _ _ _ _ _ l _ _ => l

def StatementSel.OFFSETc : StatementSel → Option String
  | .mk _ _ _ _ _ _ _ _ _ _ o _ => o

def StatementSel.FETCHc : StatementSel → Option String
  | .mk _ _ _ _ _ _ _ _ _ _ _ f => f

/-- `core.construct_empty_select_statement()`:
`{"type": SELECT, "SELECT": "*"}`. -/
def emptySelect : StatementSel :=
  .mk none .star none none none none none none none none none none

mutual
/-- The loop body of `constructor._construct_with_clause`: for each named
query, a comma is appended to the previous entry's last line (the
`len(parts) != 1` test), then `"{as} AS ("` and the body are emitted. -/
def withQueryLoop (indent : Nat) :
    List AliasCore → List String → List String
  | [], parts => parts
  | .mk asName expr :: rest, parts =>
    let parts := if parts.length ≠ 1 then addToLast parts "," else parts
    let parts :=
      match expr with
      | .lit s => parts ++ [asName ++ " AS (" ++ s ++ ")"]
      | .sub st =>
          (parts ++ [asName ++ " AS ("]) ++
            addIndent (constructSelectParts st indent) indent ++ [")"]
    withQueryLoop indent rest parts

/-- `constructor._construct_with_clause`. -/
def constructWithClause (w : WithCore) (indent : Nat) : List String :=
  match w with
  | .mk q recursiveFlag =>
      withQueryLoop indent q
        [if recursiveFlag then "WITH RECURSIVE" else "WITH"]

/-- `constructor.construct_select_statement` with `return_parts=True`: the
only clause the function ever consults is `WITH`; every other clause of the
statement is ignored, so a statement without `WITH` yields no parts at
all. -/
def constructSelectParts (st : StatementSel) (indent : Nat) : List String :=
  match st with
  | .mk withc _ _ _ _ _ _ _ _ _ _ _ =>
    match withc with
    | none => []
    | some w => [nlJoin (constructWithClause w indent) indent]
end

/-- `constructor.construct_select_statement` with `return_parts=False`
(the renderer entry's call): `indent = indent or 0`, then the parts joined
with newlines. -/
def constructSelectStatement (st : StatementSel) (indent : Option Nat) :
    String :=
  pyJoin "\n" (constructSelectParts st (indent.getD 0))

/-- `core.Statement`: the tagged union over the four statement kinds. -/
inductive StatementCore where
  | select (s : StatementSel)
  | insert (WITHv : Option WithCore)
  | update (WITHv : Option WithCore) (WHEREv : Option String)
  | delete (WITHv : Option WithCore) (WHEREv : Option String)

/-- The `type` tag of a statement. -/
def StatementCore.type : StatementCore → SupportedStatement
  | .select _ => .SELECT
  | .insert _ => .INSERT
  | .update _ _ => .UPDATE
  | .delete _ _ => .DELETE

/-- `constructor.construct_sql_str`: `match statement["type"]` handles only
the `SELECT` case; every other statement kind falls through to
`return " "`. -/
def constructSqlStr (st : StatementCore) (indent : Option Nat) : String :=
  match st with
  | .select s => constructSelectStatement s indent
  | _ => " "

/-- `constructor._construct_order_by`. Per entry: `_order_` is the
direction (`ASC`/`DESC` kept, anything else truthy becomes `USING <op>`,
`None`/empty dropped); the entry text is
`_cat(col, nulls and "NULLS {nulls}", _order_)` — with `_cat`'s default
delimiter `", "`. -/
def constructOrderBy (orders : List OrderByCore) : String :=
  let parts := orders.map (fun it =>
    let orderPart : Option String :=
      match it.order with
      | some o =>
          if o = "" then none
          else if o = "ASC" ∨ o = "DESC" then some o
          else some ("USING " ++ o)
      | none => none
    let nullsPart : Option String :=
      match it.nulls with
      | some n => some (if n = "" then "" else "NULLS " ++ n)
      | none => none
    cat ", " [some it.col, nullsPart, orderPart])
  "ORDER BY " ++ pyJoin ", " parts

mutual
/-- An operand expression of a `core.CONDITION` (`core.EXPRESSION`,
restricted to the literal-text and nested-condition shapes the claims
reach). -/
inductive ExprC where
  | lit (s : String)
  | condE (c : CondC)

/-- A side of a `core.CONDITION`: a parameter or an expression. -/
inductive OperandC where
  | param (name : Option String)
  | expr (e : ExprC)

/-- `core.CONDITION`: `{op, le, ri}`. -/
inductive CondC where
  | mk (op : String) (le : OperandC) (ri : OperandC)
end

/-- `constructor._construct_expression` on the shapes above: literal text
yields itself; on a nested condition the final `else` branch calls
`_construct_condition(e)` without the required `indent` argument, which
raises `TypeError`. -/
def constructExpression (e : ExprC) (indent : Nat) :
    Except PyErr (List String) :=
  match e, indent with
  | .lit s, _ => .ok [s]
  | .condE _, _ => .error .typeError

/-- The inner `anon(side)` of `constructor._construct_condition`: for a
parameter operand it executes `parts.append()` with no argument, raising
`TypeError`; for an expression operand it renders the expression and then
discards the result (nothing is appended). -/
def operandStep (o : OperandC) (indent : Nat) : Except PyErr Unit :=
  match o with
  | .param _ => .error .typeError
  | .expr e => do
      let _e ← constructExpression e indent
      pure ()

/-- `constructor._construct_condition`: `anon("le")`, then
`parts.append(c["op"])`, then `anon("ri")` — so on success the returned
parts hold only the operator. -/
def constructCondition (c : CondC) (indent : Nat) :
    Except PyErr (List String) :=
  match c with
  | .mk op le ri => do
      operandStep le indent
      let parts := [op]
      operandStep ri indent
      pure parts

end Core

namespace Stage

/-! ## The `select.py` builder stage operations

Every stage class deep-copies the incoming statement and writes one clause
into the copy, so each stage is modelled as a pure function from the old
statement (and the clause argument) to the new statement. -/

open Core

/-- `select.SELECT.__init__`: sets the `SELECT` clause. -/
def SELECT (st : StatementSel) (s : SelectCore) : StatementSel :=
  match st with
  | .mk w _ f wh g h win so ob l o fe => .mk w s f wh g h win so ob l o fe

/-- `select.FROM.__init__`: sets the `FROM` clause. -/
def FROM (st : StatementSel) (f : String) : StatementSel :=
  match st with
  | .mk w s _ wh g h win so ob l o fe =>
      .mk w s (some f) wh g h win so ob l o fe

/-- `select.WHERE.__init__`: sets the `WHERE` clause. -/
def WHERE (st : StatementSel) (condition : String) : StatementSel :=
  match st with
  | .mk w s f _ g h win so ob l o fe =>
      .mk w s f (some condition) g h win so ob l o fe

/-- `select.GROUP_BY.__init__`: sets the `GROUP_BY` clause. -/
def GROUP_BY (st : StatementSel) (g : GroupByCore) : StatementSel :=
  match st with
  | .mk w s f wh _ h win so ob l o fe =>
      .mk w s f wh (some g) h win so ob l o fe

/-- `select.HAVING.__init__`: sets the `HAVING` clause. -/
def HAVING (st : StatementSel) (condition : String) : StatementSel :=
  match st with
  | .mk w s f wh g _ win so ob l o fe =>
      .mk w s f wh g (some condition) win so ob l o fe

/-- `select.WINDOW.__init__`: `ws = statement.get("WINDOW", [])`, then
`ws.extend(windows)` — the new windows are appended to whatever the clause
already held. -/
def WINDOW (st : StatementSel) (windows : List String) : StatementSel :=
  match st with
  | .mk w s f wh g h win so ob l o fe =>
      .mk w s f wh g h (some ((win.getD []) ++ windows)) so ob l o fe

/-- `select.ORDER_BY.__init__`: sets the `ORDER_BY` clause to
`list(order_by)` (the stacking variant is commented out in the source). -/
def ORDER_BY (st : StatementSel) (order_by : List OrderByCore) :
    StatementSel :=
  match st with
  | .mk w s f wh g h win so _ l o fe =>
      .mk w s f wh g h win so (some order_by) l o fe

/-- `select.LIMIT.__init__`: sets the `LIMIT` clause. -/
def LIMIT (st : StatementSel) (l : String) : StatementSel :=
  match st with
  | .mk w s f wh g h win so ob _ o fe =>
      .mk w s f wh g h win so ob (some l) o fe

/-- `select.OFFSET.__init__`: sets the `OFFSET` clause. -/
def OFFSET (st : StatementSel) (o : String) : StatementSel :=
  match st with
  | .mk w s f wh g h win so ob l _ fe =>
      .mk w s f wh g h win so ob l (some o) fe

/-- `select.UNION.__init__`: appends
`{"op": "UNION", "mode": mode, "select": s}` to `SET_OPERATIONS`. -/
def UNION (st : StatementSel) (s : AliasCore) (mode : String) :
    StatementSel :=
  match st with
  | .mk w sel f wh g h win so ob l o fe =>
      .mk w sel f wh g h win
        (some ((so.getD []) ++ [.mk "UNION" mode s])) ob l o fe

/-- `select.INTERSECT.__init__`: its body is identical to `UNION`'s — it
also appends an entry whose `op` field is the string `"UNION"`. -/
def INTERSECT (st : StatementSel) (s : AliasCore) (mode : String) :
    StatementSel :=
  match st with
  | .mk w sel f wh g h win so ob l o fe =>
      .mk w sel f wh g h win
        (some ((so.getD []) ++ [.mk "UNION" mode s])) ob l o fe

/-- `select.EXCEPT.__init__`: again the identical body, appending an entry
whose `op` field is the string `"UNION"`. -/
def EXCEPT (st : StatementSel) (s : AliasCore) (mode : String) :
    StatementSel :=
  match st with
  | .mk w sel f wh g h win so ob l o fe =>
      .mk w sel f wh g h win
        (some ((so.getD []) ++ [.mk "UNION" mode s])) ob l o fe

end Stage

/-! ## Concrete inputs used by the claim theorems -/

/-- `Criterion("a", "=", "1")`. -/
def critA : Draft.Criterion := Draft.Criterion.make (.lit "a") "=" (.lit "1")

/-- `Criterion("b", "=", "2")`. -/
def critB : Draft.Criterion := Draft.Criterion.make (.lit "b") "=" (.lit "2")

/-- `Criterion("c", "=", "3")`. -/
def critC : Draft.Criterion := Draft.Criterion.make (.lit "c") "=" (.lit "3")

/-- The chain `A.AND(B).OR(C)` of three single-line conditions. -/
def chainABC : Draft.Criterion := (critA.AND critB).OR critC

/-- A SELECT statement dict holding a `*` projection, a `GROUP_BY` clause
object and a `HAVING` condition. -/
def c1Input : Draft.StatementDraft :=
  { SELECT := some (.selectCl "ALL" [.lit "*"]),
    GROUP_BY := some .groupBy,
    HAVING := some (.criterion (Draft.Criterion.make (.lit "x") "=" (.lit "1"))) }

/-- The statement built by `SqlBuilder.SELECT("*").FROM(EmployeesTable)`. -/
def c8Input : Draft.StatementDraft :=
  { SELECT := some (.selectCl "ALL" [.lit "*"]),
    FROM := some (.fromCl (.tbl ⟨none, "employees"⟩)) }

/-- A `core.py` SELECT statement that already carries a `WINDOW` clause
`["w0"]`. -/
def c9Input : Core.StatementSel :=
  .mk none .star none none none none (some ["w0"]) none none none none none

/-- Apply `f` to every character of a string. -/
def mapChars (f : Char → Char) (s : String) : String :=
  String.mk (s.data.map f)

/-- Replace the newline character by a space, and keep all others. -/
def nlToSpace (c : Char) : Char :=
  if c = '\n' then ' ' else c

/-! ## Helper lemmas -/

theorem mapChars_append (f : Char → Char) (a b : String) :
    mapChars f (a ++ b) = mapChars f a ++ mapChars f b := by
  cases a with
  | mk la =>
    cases b with
    | mk lb =>
      show String.mk ((la ++ lb).map f) = String.mk (la.map f ++ lb.map f)
      rw [List.map_append]

theorem mapChars_eq_self (f : Char → Char) (s : String)
    (h : ∀ c ∈ s.data, f c = c) : mapChars f s = s := by
  cases s with
  | mk l =>
    show String.mk (l.map f) = String.mk l
    rw [List.map_congr_left h]
    simp

theorem nlToSpace_eq_self (s : String) (h : '\n' ∉ s.data) :
    mapChars nlToSpace s = s := by
  refine mapChars_eq_self _ _ (fun c hc => ?_)
  unfold nlToSpace
  have : c ≠ '\n' := fun hcn => h (hcn ▸ hc)
  simp [this]

theorem mapChars_pyJoin_nl (parts : List String)
    (h : ∀ f ∈ parts, '\n' ∉ f.data) :
    mapChars nlToSpace (pyJoin "\n" parts) = pyJoin " " parts := by
  induction parts with
  | nil => rfl
  | cons x rest ih =>
    cases rest with
    | nil => exact nlToSpace_eq_self x (h x (by simp))
    | cons y t =>
      have hx : '\n' ∉ x.data := h x (by simp)
      have hr : ∀ f ∈ y :: t, '\n' ∉ f.data := fun f hf => h f (by simp [hf])
      show mapChars nlToSpace (x ++ "\n" ++ pyJoin "\n" (y :: t)) =
        x ++ " " ++ pyJoin " " (y :: t)
      rw [mapChars_append, mapChars_append, nlToSpace_eq_self x hx, ih hr]
      rfl

theorem buildResGo_congr (i : Nat) (ks : List String) :
    ∀ (s₁ s₂ : Draft.StatementDraft),
      (∀ k ∈ ks, s₁.lookup k = s₂.lookup k) →
      ∀ res, Draft.buildResGo s₁ i ks res = Draft.buildResGo s₂ i ks res := by
  induction ks with
  | nil => intro _ _ _ _; rfl
  | cons k ks ih =>
    intro s₁ s₂ hk res
    have h1 : s₁.lookup k = s₂.lookup k := hk k (by simp)
    have h2 : ∀ k2 ∈ ks, s₁.lookup k2 = s₂.lookup k2 :=
      fun k2 hk2 => hk k2 (by simp [hk2])
    simp only [Draft.buildResGo]
    rw [h1]
    cases hp : s₂.lookup k with
    | none => exact ih s₁ s₂ h2 res
    | some p =>
      cases hg : p.getSqlParts i with
      | error e => simp [bind, Except.bind, hg]
      | ok tmp =>
        cases tmp with
        | one str => simp [bind, Except.bind, hg]; exact ih s₁ s₂ h2 _
        | many l => simp [bind, Except.bind, hg]; exact ih s₁ s₂ h2 _

/-! ## Claim theorems -/

/-- C1: the clause walk of `_HasStateSelect.get_sql` never visits the
`HAVING` key — its `order` list omits `HAVING` — so a present `HAVING`
clause is skipped entirely: any two statements differing only in their
`HAVING` slot render identically, and the concrete statement
`{SELECT: "*", GROUP_BY: ..., HAVING: x = 1}` renders without any HAVING
fragment (the claim says HAVING is rendered between GROUP_BY and WINDOW). -/
theorem c1_having_never_rendered :
    (∀ (s : Draft.StatementDraft) (h : Draft.SqlPart) (i : Option Nat),
      Draft.getSql { s with HAVING := some h } i =
        Draft.getSql { s with HAVING := none } i) ∧
    Draft.getSql c1Input none = .ok "SELECT * " := by
  constructor
  · intro s h i
    have hb : Draft.buildRes { s with HAVING := some h } (i.getD 0) =
        Draft.buildRes { s with HAVING := none } (i.getD 0) := by
      refine buildResGo_congr _ _ _ _ (fun k hk => ?_) []
      simp only [Draft.order] at hk
      fin_cases hk <;> rfl
    unfold Draft.getSql
    dsimp only
    rw [hb]
  · rfl

/-- C2 counterexample: for a concrete INSERT statement the renderer entry
point `construct_sql_str` returns the text `" "` — it does not fail, so the
claim that non-SELECT statements raise `UnsupportedStatementError` instead
of returning output text is false (no such error class exists in the
source). -/
theorem c2_counterexample_insert_returns_space :
    Core.constructSqlStr (.insert none) none = " " := rfl

/-- C2 amended: for every statement whose type is not SELECT, the renderer
entry point returns the single-space string `" "` (the `match` falls
through to `return " "`). -/
theorem c2_non_select_returns_space (st : Core.StatementCore)
    (i : Option Nat) (h : st.type ≠ .SELECT) :
    Core.constructSqlStr st i = " " := by
  cases st with
  | select s => exact absurd rfl h
  | insert w => rfl
  | update w wh => rfl
  | delete w wh => rfl

/-- C2 witness: an UPDATE statement is not SELECT and renders to `" "`. -/
theorem c2_witness :
    (Core.StatementCore.update none none).type ≠ .SELECT ∧
      Core.constructSqlStr (.update none none) none = " " :=
  ⟨by decide, c2_non_select_returns_space (.update none none) none (by decide)⟩

/-- C3: `Criterion.get_sql_parts` returns `"{le} {op} {ri}"` immediately
when both operands are single-line, before the `_prev` handling, so the
chain `A.AND(B).OR(C)` of single-line conditions renders as just `"c = 3"`
— the predecessors and connectors are silently dropped, contradicting the
claim that the chain renders flat as `"a = 1 AND b = 2 OR c = 3"`. -/
theorem c3_single_line_chain_drops_predecessors :
    Draft.criterionParts chainABC 0 = .ok (.one "c = 3") ∧
      Draft.criterionParts chainABC 0 ≠
        .ok (.one "a = 1 AND b = 2 OR c = 3") := by
  constructor
  · simp [chainABC, critA, critB, critC, Draft.criterionParts,
      Draft.sqlPartHelper, Draft.Criterion.make, Draft.Criterion.AND,
      Draft.Criterion.OR, pure, Except.pure, bind, Except.bind]
  · intro h
    rw [show Draft.criterionParts chainABC 0 = .ok (.one "c = 3") from by
      simp [chainABC, critA, critB, critC, Draft.criterionParts,
        Draft.sqlPartHelper, Draft.Criterion.make, Draft.Criterion.AND,
        Draft.Criterion.OR, pure, Except.pure, bind, Except.bind]] at h
    simp at h

/-- C4: on the minimal well-formed SELECT statement
`{"type": SELECT, "SELECT": "*"}`, `construct_sql_str` returns the empty
string — `construct_select_statement` only ever renders the `WITH` clause
and never emits the SELECT projection — while the parallel draft renderer
`_HasStateSelect.get_sql` on the equivalent statement produces the
`"SELECT *"` the claim (and the repository's own tests) expect. -/
theorem c4_constructor_select_star_renders_empty :
    Core.constructSqlStr (.select Core.emptySelect) none = "" ∧
      Draft.getSql { SELECT := some (.selectCl "ALL" [.lit "*"]) } none =
        .ok "SELECT *" := by
  exact ⟨rfl, rfl⟩

/-- C5: a condition built with `Criterion.NOT` whose operands are both
single-line renders without any `"NOT "` prefix (the early single-line
return precedes the negation handling); in the multi-line case the method
does apply the prefix but then reads the never-assigned `_prev` attribute
and raises `AttributeError`, so no `"NOT "`-prefixed output is produced
there either. -/
theorem c5_not_prefix_dropped :
    Draft.criterionParts (Draft.Criterion.NOT (.lit "a") "=" (.lit "b")) 0 =
      .ok (.one "a = b") ∧
    Draft.criterionParts
        (Draft.Criterion.NOT (.sel "ALL" [.lit "*"]) "=" (.lit "b")) 0 =
      .error .attributeError := by
  constructor
  · simp [Draft.criterionParts, Draft.sqlPartHelper, Draft.Criterion.NOT,
      pure, Except.pure, bind, Except.bind]
  · simp [Draft.criterionParts, Draft.sqlPartHelper, Draft.Criterion.NOT,
      Draft.selectClParts, Draft.selectColsLoop, Draft.colArgLines,
      addIndent, addToLast, addToFirst, spaces,
      pure, Except.pure, bind, Except.bind, throw, throwThe,
      MonadExceptOf.throw]

/-- C6: `_construct_order_by` joins the tokens of a single ORDER BY entry
with `_cat`'s default delimiter `", "` and places the `NULLS` token before
the direction, so the entry `{col, order: DESC, nulls: LAST}` renders as
`"ORDER BY col, NULLS LAST, DESC"` — not as the claimed
`"ORDER BY col DESC NULLS LAST"`. -/
theorem c6_order_by_entry_comma_joined :
    Core.constructOrderBy
        [{ col := "col", order := some "DESC", nulls := some "LAST" }] =
      "ORDER BY col, NULLS LAST, DESC" ∧
    Core.constructOrderBy
        [{ col := "col", order := some "DESC", nulls := some "LAST" }] ≠
      "ORDER BY col DESC NULLS LAST" := by
  exact ⟨rfl, by decide⟩

/-- C7: `_construct_condition` on the fully populated condition
`{le: Param("x"), op: "=", ri: "1"}` raises `TypeError` (its inner helper
executes `parts.append()` with no argument on a parameter operand), and
even on `{le: "a", op: "=", ri: "1"}` it succeeds only by discarding both
operands, returning just `["="]` — contradicting the claim that the
renderer always terminates successfully with a text form of the
condition and can raise only the documented structural errors. -/
theorem c7_condition_renderer_type_error :
    Core.constructCondition
        (.mk "=" (.param (some "x")) (.expr (.lit "1"))) 0 =
      .error .typeError ∧
    Core.constructCondition (.mk "=" (.expr (.lit "a")) (.expr (.lit "1"))) 0 =
      .ok ["="] := by
  exact ⟨rfl, rfl⟩

/-- C8: single-line rendering (`indent` unset) and multi-line rendering
with step `0` produce joins of the same fragment list — one with `" "`,
one with `"\n"` — so when no fragment itself contains a newline the two
outputs differ exactly by replacing the newline join character with a
space, never in token content. -/
theorem c8_format_equivalence (s : Draft.StatementDraft)
    (parts : List String) (hok : Draft.buildRes s 0 = .ok parts)
    (hnl : ∀ f ∈ parts, '\n' ∉ f.data) :
    Draft.getSql s none = .ok (pyJoin " " parts) ∧
    Draft.getSql s (some 0) = .ok (pyJoin "\n" parts) ∧
    mapChars nlToSpace (pyJoin "\n" parts) = pyJoin " " parts := by
  refine ⟨?_, ?_, mapChars_pyJoin_nl parts hnl⟩
  · unfold Draft.getSql
    dsimp only
    rw [Option.getD_none, hok]
    rfl
  · unfold Draft.getSql
    dsimp only
    rw [Option.getD_some, hok]
    rfl

/-- C8 witness: on `SELECT("*").FROM(EmployeesTable)` the two modes render
`"SELECT * FROM employees"` and `"SELECT\n*\nFROM\nemployees"`. -/
theorem c8_witness :
    Draft.getSql c8Input none = .ok "SELECT * FROM employees" ∧
      Draft.getSql c8Input (some 0) = .ok "SELECT\n*\nFROM\nemployees" := by
  obtain ⟨h1, h2, _⟩ :=
    c8_format_equivalence c8Input ["SELECT", "*", "FROM", "employees"]
      (by rfl) (by decide)
  exact ⟨h1.trans rfl, h2.trans rfl⟩

/-- C9 counterexample: the `WINDOW` stage does not set the clause to the
supplied value — it appends to the existing list (`ws =
statement.get("WINDOW", []); ws.extend(windows)`): applied to a statement
whose `WINDOW` clause is `["w0"]` with argument `["w1"]`, the result's
`WINDOW` clause is `["w0", "w1"]`, not `["w1"]`. -/
theorem c9_window_counterexample :
    (Stage.WINDOW c9Input ["w1"]).WINDOWc = some ["w0", "w1"] ∧
      (Stage.WINDOW c9Input ["w1"]).WINDOWc ≠ some ["w1"] := by
  exact ⟨rfl, by decide⟩

/-- C9 amended: every builder stage returns a new statement with all other
clauses preserved (each stage deep-copies its input, which is therefore
never mutated); the stages for SELECT, FROM, WHERE, GROUP_BY, HAVING,
ORDER_BY, LIMIT and OFFSET set their clause to the supplied value, while
WINDOW appends the supplied windows to the existing list and
UNION/INTERSECT/EXCEPT append one set-operation entry. -/
theorem c9_stage_frame_conditions (s : Core.StatementSel)
    (v : Core.SelectCore) (f c hv : String) (g : Core.GroupByCore)
    (ws : List String) (obs : List Core.OrderByCore) (l o : String)
    (a : Core.AliasCore) (m : String) :
    Stage.SELECT s v =
      .mk s.WITHc v s.FROMc s.WHEREc s.GROUP_BYc s.HAVINGc s.WINDOWc
        s.SET_OPERATIONSc s.ORDER_BYc s.LIMITc s.OFFSETc s.FETCHc ∧
    Stage.FROM s f =
      .mk s.WITHc s.SELECTc (some f) s.WHEREc s.GROUP_BYc s.HAVINGc
        s.WINDOWc s.SET_OPERATIONSc s.ORDER_BYc s.LIMITc s.OFFSETc
        s.FETCHc ∧
    Stage.WHERE s c =
      .mk s.WITHc s.SELECTc s.FROMc (some c) s.GROUP_BYc s.HAVINGc
        s.WINDOWc s.SET_OPERATIONSc s.ORDER_BYc s.LIMITc s.OFFSETc
        s.FETCHc ∧
    Stage.GROUP_BY s g =
      .mk s.WITHc s.SELECTc s.FROMc s.WHEREc (some g) s.HAVINGc s.WINDOWc
        s.SET_OPERATIONSc s.ORDER_BYc s.LIMITc s.OFFSETc s.FETCHc ∧
    Stage.HAVING s hv =
      .mk s.WITHc s.SELECTc s.FROMc s.WHEREc s.GROUP_BYc (some hv)
        s.WINDOWc s.SET_OPERATIONSc s.ORDER_BYc s.LIMITc s.OFFSETc
        s.FETCHc ∧
    Stage.WINDOW s ws =
      .mk s.WITHc s.SELECTc s.FROMc s.WHEREc s.GROUP_BYc s.HAVINGc
        (some ((s.WINDOWc.getD []) ++ ws)) s.SET_OPERATIONSc s.ORDER_BYc
        s.LIMITc s.OFFSETc s.FETCHc ∧
    Stage.ORDER_BY s obs =
      .mk s.WITHc s.SELECTc s.FROMc s.WHEREc s.GROUP_BYc s.HAVINGc
        s.WINDOWc s.SET_OPERATIONSc (some obs) s.LIMITc s.OFFSETc
        s.FETCHc ∧
    Stage.LIMIT s l =
      .mk s.WITHc s.SELECTc s.FROMc s.WHEREc s.GROUP_BYc s.HAVINGc
        s.WINDOWc s.SET_OPERATIONSc s.ORDER_BYc (some l) s.OFFSETc
        s.FETCHc ∧
    Stage.OFFSET s o =
      .mk s.WITHc s.SELECTc s.FROMc s.WHEREc s.GROUP_BYc s.HAVINGc
        s.WINDOWc s.SET_OPERATIONSc s.ORDER_BYc s.LIMITc (some o)
        s.FETCHc ∧
    Stage.UNION s a m =
      .mk s.WITHc s.SELECTc s.FROMc s.WHEREc s.GROUP_BYc s.HAVINGc
        s.WINDOWc (some ((s.SET_OPERATIONSc.getD []) ++ [.mk "UNION" m a]))
        s.ORDER_BYc s.LIMITc s.OFFSETc s.FETCHc := by
  cases s
  exact ⟨rfl, rfl, rfl, rfl, rfl, rfl, rfl, rfl, rfl, rfl⟩

/-- C10: the `INTERSECT` and `EXCEPT` stages are extensionally equal to the
`UNION` stage — all three append a set-operation entry whose `op` field is
the string `"UNION"`. -/
theorem c10_intersect_except_equal_union (s : Core.StatementSel)
    (a : Core.AliasCore) (m : String) :
    Stage.INTERSECT s a m = Stage.UNION s a m ∧
      Stage.EXCEPT s a m = Stage.UNION s a m := by
  cases s
  exact ⟨rfl, rfl⟩
